import Mathlib

/-!
Verification of the department service (`src/unnamed/part_000`, a JS module
built on zod validation and a Prisma-backed department store).

The embedding models:
  * the `Department` / `Employee` / `Position` rows the service reads and
    writes, and a `DB` value standing for the relational store;
  * `checkCircularReference`, the bounded ancestor walk for cycle detection,
    parametrised over the repository lookup (so that lookup failures —
    `.error` — and missing rows — `.ok none` — can be expressed);
  * the service operations the claims are about: `getDepartments`,
    `createDepartment`, `updateDepartment`, `deleteDepartment`, together
    with the zod schema checks they begin with.

Conventions of the embedding:
  * JS `string` ids are Lean `String`; `null` is `none`.  A field of an
    update payload that may be absent, null, or a value is
    `Option (Option _)` (`none` = absent, `some none` = null).
  * `schema.parse` throwing a ZodError is `DeptError.parse`.  zod's
    `min`/`max`/`enum` checks reject (throw); `.default` applies only to an
    absent field — both modelled exactly as zod behaves.
  * The uuid-format checks of `z.string().uuid(...)` are not modelled: no
    claim depends on id syntax, and eliding them only enlarges the set of
    inputs the universally quantified theorems cover.
  * Prisma's `mode: 'insensitive'` string comparison is modelled with
    ASCII lower-casing (`lowerStr`, the character-list form of
    `String.toLower`); Prisma-generated timestamps are a `now : Nat`
    argument; relation expansions (`include`) that only project data for
    the response are elided.
-/

/-- Error kinds of the service (`ValidationError`, `NotFoundError`,
`UnauthorizedError` from `utils/errors.js`, plus `parse` for a ZodError
thrown by `schema.parse` and `internal` for the generic `Error` wrappers). -/
inductive DeptError where
  | validation (msg : String)
  | notFound (msg : String)
  | unauthorized (msg : String)
  | parse (msg : String)
  | internal (msg : String)
deriving Repr, DecidableEq

/-- A row of the `Department` relation. -/
structure Department where
  id : String
  name : String
  description : Option String
  isActive : Bool
  managerId : Option String
  parentId : Option String
  createdAt : Nat
  updatedAt : Nat
deriving Repr, DecidableEq

/-- A row of the `Employee` relation (the fields the service touches). -/
structure Employee where
  id : String
  departmentId : Option String
  employmentStatus : String
deriving Repr, DecidableEq

/-- A row of the `Position` relation (the fields the service touches). -/
structure Position where
  id : String
  departmentId : String
  isActive : Bool
deriving Repr, DecidableEq

/-- The relational store behind the Prisma client. -/
structure DB where
  departments : List Department
  employees : List Employee
  positions : List Position
deriving Repr, DecidableEq

/-- `checkAuthorization` helper: throws `UnauthorizedError` when the caller
role is not in the required list. -/
def checkAuthorization (userRole : String) (requiredRoles : List String) :
    Except DeptError Unit :=
  if requiredRoles.contains userRole then .ok ()
  else .error (.unauthorized "Insufficient permissions")

/-- `prisma.department.findUnique({where: {id}})`. -/
def findDept (db : DB) (i : String) : Option Department :=
  db.departments.find? (fun d => d.id == i)

/-- `prisma.department.findFirst({where: {id, isActive: true}})`. -/
def findActiveDept (db : DB) (i : String) : Option Department :=
  db.departments.find? (fun d => d.id == i && d.isActive)

/-- `prisma.employee.findFirst({where: {id, employmentStatus: 'ACTIVE'}})`. -/
def findActiveEmployee (db : DB) (i : String) : Option Employee :=
  db.employees.find? (fun e => e.id == i && e.employmentStatus == "ACTIVE")

/-- Lower-casing (`String.toLower`), expressed on the character list so
that proofs can evaluate it. -/
def lowerStr (s : String) : String :=
  ⟨s.data.map Char.toLower⟩

/-- Trimming of leading and trailing whitespace (JS `String.prototype.trim`,
zod's `transform(val => val.trim())`), expressed on the character list. -/
def strTrim (s : String) : String :=
  ⟨(((s.data.dropWhile Char.isWhitespace).reverse.dropWhile Char.isWhitespace).reverse)⟩

/-- Prisma `name: {equals: _, mode: 'insensitive'}`. -/
def nameInsensitiveEq (a b : String) : Bool :=
  lowerStr a == lowerStr b

/-- The walk of `checkCircularReference` (the `while` loop, lines 52-72):
fuel counts the remaining iterations allowed by `maxDepth`; the walk stops
with `false` on fuel exhaustion, a null parent, a missing row (`.ok none`)
or a repository error (`.error`), and reports `true` exactly on meeting an
already-visited id. -/
def ccrWalk (find : String → Except Unit (Option (Option String))) :
    List String → Option String → Nat → Bool
  | _, _, 0 => false
  | _, none, _ => false
  | visited, some c, Nat.succ fuel =>
    if c ∈ visited then true
    else
      match find c with
      | .error _ => false
      | .ok none => false
      | .ok (some p) => ccrWalk find (c :: visited) p fuel

/-- `checkCircularReference(departmentId, parentId)`: immediate `true` on
self-parenting, otherwise the bounded walk with `maxDepth = 50`, the visited
set seeded with `departmentId`.  `find` is the repository lookup
`prisma.department.findUnique({where: {id}, select: {parentId: true}})`. -/
def checkCircularReference (find : String → Except Unit (Option (Option String)))
    (departmentId parentId : String) : Bool :=
  if departmentId = parentId then true
  else ccrWalk find [departmentId] (some parentId) 50

/-- The parent lookup used by the cycle check when run against the store:
never errors, returns the row's `parentId` when the row exists. -/
def dbParentLookup (db : DB) (i : String) : Except Unit (Option (Option String)) :=
  .ok ((db.departments.find? (fun d => d.id == i)).map (fun d => d.parentId))

/-- The ancestor chain induced by a lookup function: `iterParent find c n`
is the id reached after `n` parent steps from `c` (`none` once the chain
has ended through a null parent, a missing row or a lookup error). -/
def iterParent (find : String → Except Unit (Option (Option String))) :
    Option String → Nat → Option String
  | none, _ => none
  | some c, 0 => some c
  | some c, Nat.succ n =>
    match find c with
    | .ok (some p) => iterParent find p n
    | _ => none

/-- A three-node stored chain A→B→C: `a` is a root, `b`'s parent is `a`,
`c`'s parent is `b` (the shape of the spec's cycle-symmetry scenario). -/
def chainDB (a b c : String) : DB :=
  { departments :=
      [ { id := a, name := a, description := none, isActive := true,
          managerId := none, parentId := none, createdAt := 0, updatedAt := 0 },
        { id := b, name := b, description := none, isActive := true,
          managerId := none, parentId := some a, createdAt := 0, updatedAt := 0 },
        { id := c, name := c, description := none, isActive := true,
          managerId := none, parentId := some b, createdAt := 0, updatedAt := 0 } ],
    employees := [], positions := [] }

/-- The zod-validated payload of `updateDepartment`
(`departmentSchema` made optional field-wise, line 21): each field is
absent (`none`) or present (`some _`); `managerId`, `parentId` and
`description` may additionally be present-and-null (`some none`). -/
structure UpdateData where
  name : Option String
  managerId : Option (Option String)
  parentId : Option (Option String)
  isActive : Option Bool
  description : Option (Option String)
deriving Repr, DecidableEq

/-- The name-conflict block of `updateDepartment` (lines 319-332): only when
a name is supplied, truthy, and differs from the current one, look for
another department with the same name case-insensitively. -/
def checkNameConflict (db : DB) (id : String) (existing : Department) :
    Option String → Except DeptError Unit
  | none => .ok ()
  | some n =>
    if n ≠ "" ∧ n ≠ existing.name then
      match db.departments.find? (fun d => nameInsensitiveEq d.name n && d.id != id) with
      | some _ => .error (.validation "Department name already exists")
      | none => .ok ()
    else .ok ()

/-- Manager validation shared by create and update (`if (managerId) {...}`):
runs only for a truthy (present, non-null) manager id. -/
def checkManagerRef (db : DB) : Option String → Except DeptError Unit
  | some m =>
    match findActiveEmployee db m with
    | some _ => .ok ()
    | none => .error (.validation "Manager not found or not active")
  | none => .ok ()

/-- Parent validation of `createDepartment` (`if (parentId) {...}`, lines
257-267). -/
def checkParentRefCreate (db : DB) : Option String → Except DeptError Unit
  | some p =>
    match findActiveDept db p with
    | some _ => .ok ()
    | none => .error (.validation "Parent department not found or not active")
  | none => .ok ()

/-- The parent block of `updateDepartment` (lines 348-366): runs only when
`parentId` is present in the payload (`parentId !== undefined`), and only a
non-null value triggers the existence check and the cycle check. -/
def checkParentUpdate (db : DB) (id : String) :
    Option (Option String) → Except DeptError Unit
  | some (some p) =>
    match findActiveDept db p with
    | none => .error (.validation "Parent department not found or not active")
    | some _ =>
      if checkCircularReference (dbParentLookup db) id p then
        .error (.validation "Cannot create circular parent-child relationship")
      else .ok ()
  | _ => .ok ()

/-- The `updateData` object of lines 369-374 applied by `prisma.update`:
exactly the fields that are present (`!== undefined`) are written; Prisma
refreshes `updatedAt`. -/
def applyUpdate (d : Department) (data : UpdateData) (now : Nat) : Department :=
  { d with
    name := data.name.getD d.name,
    managerId := data.managerId.getD d.managerId,
    parentId := data.parentId.getD d.parentId,
    isActive := data.isActive.getD d.isActive,
    description := data.description.getD d.description,
    updatedAt := now }

/-- `prisma.department.update({where: {id}})`: replace the row with that id. -/
def replaceDept (db : DB) (d : Department) : DB :=
  { db with departments := db.departments.map (fun x => if x.id == d.id then d else x) }

/-- `updateDepartment({id, data, userRole})` (lines 301-402) over an
already-validated payload: id-presence check, authorization (`ADMIN`/`HR`),
existence, name conflict, manager, parent + cycle check, then the
field-wise write. -/
def updateDepartment (db : DB) (id : String) (data : UpdateData)
    (userRole : String) (now : Nat) : Except DeptError (DB × Department) :=
  if id = "" then .error (.validation "Department ID is required")
  else
    match checkAuthorization userRole ["ADMIN", "HR"] with
    | .error e => .error e
    | .ok _ =>
      match findDept db id with
      | none => .error (.notFound "Department not found")
      | some existing =>
        match checkNameConflict db id existing data.name with
        | .error e => .error e
        | .ok _ =>
          match checkManagerRef db data.managerId.join with
          | .error e => .error e
          | .ok _ =>
            match checkParentUpdate db id data.parentId with
            | .error e => .error e
            | .ok _ =>
              let updated := applyUpdate existing data now
              .ok (replaceDept db updated, updated)

/-- The raw payload of `createDepartment`, before `departmentSchema.parse`.
`none` stands for an absent (or null, where nullable) field. -/
structure CreateInput where
  name : String
  managerId : Option String
  parentId : Option String
  isActive : Option Bool
  description : Option String
deriving Repr, DecidableEq

/-- The payload after `departmentSchema.parse`: trimmed name, defaulted
`isActive`, normalised description. -/
structure CreateData where
  name : String
  managerId : Option String
  parentId : Option String
  isActive : Bool
  description : Option String
deriving Repr, DecidableEq

/-- zod `name` field: `min(1)`/`max(100)` validate the raw value, then
`transform` trims it. -/
def parseName (s : String) : Except DeptError String :=
  if s.length < 1 then .error (.parse "Name is required")
  else if s.length > 100 then .error (.parse "Name must be less than 100 characters")
  else .ok (strTrim s)

/-- zod `description` field: `max(500)` then `val?.trim() || null`
(a trimmed-to-empty description becomes null). -/
def parseDescription : Option String → Except DeptError (Option String)
  | none => .ok none
  | some d =>
    if d.length > 500 then .error (.parse "Description must be less than 500 characters")
    else .ok (if strTrim d = "" then none else some (strTrim d))

/-- `departmentSchema.parse` on a create payload (uuid-format checks on
`managerId`/`parentId` elided, see header). -/
def parseCreateInput (input : CreateInput) : Except DeptError CreateData :=
  match parseName input.name, parseDescription input.description with
  | .ok n, .ok de =>
    .ok { name := n, managerId := input.managerId, parentId := input.parentId,
          isActive := input.isActive.getD true, description := de }
  | .error e, _ => .error e
  | _, .error e => .error e

/-- The row written by `prisma.department.create` (lines 269-276). -/
def newDeptOf (newId : String) (data : CreateData) (now : Nat) : Department :=
  { id := newId, name := data.name, description := data.description,
    isActive := data.isActive, managerId := data.managerId,
    parentId := data.parentId, createdAt := now, updatedAt := now }

/-- The uniqueness probe of `createDepartment` (lines 230-237): first
department — active or not — whose name matches case-insensitively. -/
def findNameMatch (db : DB) (name : String) : Option Department :=
  db.departments.find? (fun d => nameInsensitiveEq d.name name)

/-- `createDepartment({data, userRole})` (lines 222-298): authorization,
schema parse, case-insensitive name uniqueness over all departments,
manager and parent reference checks, then the insert. -/
def createDepartment (db : DB) (newId : String) (input : CreateInput)
    (userRole : String) (now : Nat) : Except DeptError (DB × Department) :=
  match checkAuthorization userRole ["ADMIN", "HR"] with
  | .error e => .error e
  | .ok _ =>
    match parseCreateInput input with
    | .error e => .error e
    | .ok data =>
      match findNameMatch db data.name with
      | some _ => .error (.validation "Department name already exists")
      | none =>
        match checkManagerRef db data.managerId with
        | .error e => .error e
        | .ok _ =>
          match checkParentRefCreate db data.parentId with
          | .error e => .error e
          | .ok _ =>
            let d := newDeptOf newId data now
            .ok ({ db with departments := db.departments ++ [d] }, d)

/-- The `employees` include of `deleteDepartment` (line 414): employees of
the department with `employmentStatus: 'ACTIVE'`. -/
def activeEmployeesOf (db : DB) (id : String) : List Employee :=
  db.employees.filter (fun e => e.departmentId == some id && e.employmentStatus == "ACTIVE")

/-- The `children` include of `deleteDepartment` (line 415): active child
departments. -/
def activeChildrenOf (db : DB) (id : String) : List Department :=
  db.departments.filter (fun d => d.parentId == some id && d.isActive)

/-- The `positions` include of `deleteDepartment` (line 416): active
positions of the department. -/
def activePositionsOf (db : DB) (id : String) : List Position :=
  db.positions.filter (fun p => p.departmentId == id && p.isActive)

/-- `deleteDepartment({id, userRole})` (lines 405-477): soft delete with
dependency guards — active employees checked first, then children, then
positions; on success one update sets `isActive: false` and clears
`managerId`. -/
def deleteDepartment (db : DB) (id : String) (userRole : String) (now : Nat) :
    Except DeptError (DB × Department) :=
  if id = "" then .error (.validation "Department ID is required")
  else
    match checkAuthorization userRole ["ADMIN", "HR"] with
    | .error e => .error e
    | .ok _ =>
      match findDept db id with
      | none => .error (.notFound "Department not found")
      | some existing =>
        if !existing.isActive then .error (.validation "Department is already inactive")
        else if (activeEmployeesOf db id).length > 0 then
          .error (.validation ("Cannot delete department with " ++
            toString (activeEmployeesOf db id).length ++
            " active employee(s). Please reassign employees first."))
        else if (activeChildrenOf db id).length > 0 then
          .error (.validation ("Cannot delete department with " ++
            toString (activeChildrenOf db id).length ++
            " active child department(s). Please reassign or delete child departments first."))
        else if (activePositionsOf db id).length > 0 then
          .error (.validation ("Cannot delete department with " ++
            toString (activePositionsOf db id).length ++
            " active position(s). Please reassign or delete positions first."))
        else
          let updated := { existing with isActive := false, managerId := none, updatedAt := now }
          .ok (replaceDept db updated, updated)

/-- The raw query parameters of `getDepartments`, before
`getDepartmentsSchema.parse`.  `parentId` may be absent, null, or a string. -/
structure GetParams where
  userRole : String
  page : Option Nat
  limit : Option Nat
  isActive : Option Bool
  parentId : Option (Option String)
  search : Option String
  sortBy : Option String
  sortOrder : Option String
deriving Repr, DecidableEq

/-- The query parameters after `getDepartmentsSchema.parse`. -/
structure ValidatedGetParams where
  userRole : String
  page : Nat
  limit : Nat
  isActive : Option Bool
  parentId : Option (Option String)
  search : Option String
  sortBy : String
  sortOrder : String
deriving Repr, DecidableEq

/-- zod `page: z.number().min(1).default(1)`. -/
def parsePage : Option Nat → Except DeptError Nat
  | none => .ok 1
  | some p => if 1 ≤ p then .ok p else .error (.parse "Page must be at least 1")

/-- zod `limit: z.number().min(1).max(100).default(10)`: out-of-range
values are rejected, only an absent limit gets the default. -/
def parseLimit : Option Nat → Except DeptError Nat
  | none => .ok 10
  | some l =>
    if l < 1 then .error (.parse "Limit must be at least 1")
    else if 100 < l then .error (.parse "Limit cannot exceed 100")
    else .ok l

/-- zod `search: z.string().min(1).optional()`. -/
def parseSearch : Option String → Except DeptError (Option String)
  | none => .ok none
  | some s => if s = "" then .error (.parse "Search term must not be empty") else .ok (some s)

/-- zod `sortBy: z.enum(['name','createdAt','updatedAt']).default('name')`:
an unrecognized value is rejected with a ZodError; only an absent value
gets the default. -/
def parseSortBy : Option String → Except DeptError String
  | none => .ok "name"
  | some s =>
    if s = "name" ∨ s = "createdAt" ∨ s = "updatedAt" then .ok s
    else .error (.parse "Invalid enum value")

/-- zod `sortOrder: z.enum(['asc','desc']).default('asc')`. -/
def parseSortOrder : Option String → Except DeptError String
  | none => .ok "asc"
  | some s =>
    if s = "asc" ∨ s = "desc" then .ok s
    else .error (.parse "Invalid enum value")

/-- `getDepartmentsSchema.parse` (lines 23-32). -/
def parseGetParams (p : GetParams) : Except DeptError ValidatedGetParams :=
  match parsePage p.page, parseLimit p.limit, parseSearch p.search,
        parseSortBy p.sortBy, parseSortOrder p.sortOrder with
  | .ok pg, .ok lim, .ok se, .ok sb, .ok so =>
    .ok { userRole := p.userRole, page := pg, limit := lim, isActive := p.isActive,
          parentId := p.parentId, search := se, sortBy := sb, sortOrder := so }
  | .error e, _, _, _, _ => .error e
  | _, .error e, _, _, _ => .error e
  | _, _, .error e, _, _ => .error e
  | _, _, _, .error e, _ => .error e
  | _, _, _, _, .error e => .error e

/-- Prisma `contains` with `mode: 'insensitive'`. -/
def containsInsensitive (hay needle : String) : Bool :=
  decide ((lowerStr needle).data <:+: (lowerStr hay).data)

/-- The `where` clause of `getDepartments` (lines 87-95): active-status
filter when supplied, parent filter when truthy, search against name OR
description (a null description never matches). -/
def whereMatch (vp : ValidatedGetParams) (d : Department) : Bool :=
  (match vp.isActive with
   | some b => d.isActive == b
   | none => true) &&
  (match vp.parentId with
   | some (some p) => if p = "" then true else d.parentId == some p
   | _ => true) &&
  (match vp.search with
   | some s =>
     containsInsensitive d.name s ||
     (match d.description with
      | some t => containsInsensitive t s
      | none => false)
   | none => true)

/-- The comparison induced by `orderBy[sortBy] = sortOrder`.  Only the three
validated keys reach this point; the catch-all arm is unreachable for a
parsed `sortBy`. -/
def deptLe (sortBy sortOrder : String) (a b : Department) : Bool :=
  let key : Department → Department → Bool :=
    match sortBy with
    | "createdAt" => fun x y => x.createdAt ≤ y.createdAt
    | "updatedAt" => fun x y => x.updatedAt ≤ y.updatedAt
    | _ => fun x y => decide (x.name < y.name) || x.name == y.name
  if sortOrder = "desc" then key b a else key a b

/-- Insertion into a sorted list (store-side `orderBy` model). -/
def insertSorted (le : Department → Department → Bool) (d : Department) :
    List Department → List Department
  | [] => [d]
  | x :: xs => if le d x then d :: x :: xs else x :: insertSorted le d xs

/-- Sort of the store-side `orderBy` model. -/
def sortDepts (le : Department → Department → Bool) :
    List Department → List Department
  | [] => []
  | x :: xs => insertSorted le x (sortDepts le xs)

/-- Pagination block of the list response (lines 133-140). -/
structure PageInfo where
  page : Nat
  limit : Nat
  total : Nat
  pages : Nat
  hasNext : Bool
  hasPrev : Bool
deriving Repr, DecidableEq

/-- The list response (lines 131-141). -/
structure ListResult where
  departments : List Department
  pagination : PageInfo
deriving Repr, DecidableEq

/-- `Math.ceil(total / limit)` on naturals. -/
def ceilDivNat (a b : Nat) : Nat := (a + b - 1) / b

/-- `getDepartments(params)` (lines 78-146): schema parse, authorization
(`ADMIN`/`HR`/`MANAGER`), filtered + sorted + paged rows joined with the
matching `count`, and the derived pagination block. -/
def getDepartments (db : DB) (params : GetParams) : Except DeptError ListResult :=
  match parseGetParams params with
  | .error e => .error e
  | .ok vp =>
    match checkAuthorization vp.userRole ["ADMIN", "HR", "MANAGER"] with
    | .error e => .error e
    | .ok _ =>
      let filtered := db.departments.filter (whereMatch vp)
      let total := filtered.length
      let sorted := sortDepts (deptLe vp.sortBy vp.sortOrder) filtered
      let skip := (vp.page - 1) * vp.limit
      let items := (sorted.drop skip).take vp.limit
      let pages := ceilDivNat total vp.limit
      .ok { departments := items,
            pagination :=
              { page := vp.page, limit := vp.limit, total := total, pages := pages,
                hasNext := decide (vp.page < pages), hasPrev := decide (1 < vp.page) } }

/-- A repository lookup that always raises (models a thrown Prisma error,
caught by the `catch` of lines 68-71). -/
def errFind : String → Except Unit (Option (Option String)) := fun _ => .error ()

/-- A repository lookup that never finds a row (`if (!parent) break`). -/
def noneFind : String → Except Unit (Option (Option String)) := fun _ => .ok none

/-- A repository lookup whose ancestor chain is infinite and never repeats
(each parent id is one character longer), exercising the depth bound. -/
def chainFind : String → Except Unit (Option (Option String)) :=
  fun s => .ok (some (some (s ++ "x")))

/-- Fixture: a root department. -/
def deptS : Department := ⟨"s", "Sales", none, true, none, none, 0, 0⟩

/-- Fixture: a child of `deptS`. -/
def deptE : Department := ⟨"e", "Engineering", none, true, none, some "s", 0, 0⟩

/-- Fixture: store with the two-level hierarchy `deptS` ← `deptE`. -/
def db4 : DB := ⟨[deptS, deptE], [], []⟩

/-- Fixture: update payload re-parenting under `deptE`. -/
def upd4 : UpdateData := ⟨none, none, some (some "e"), none, none⟩

/-- Fixture: a root department with a manager. -/
def deptSM : Department := ⟨"s", "Sales", none, true, some "m1", none, 0, 0⟩

/-- Fixture: `deptSM` with one active employee. -/
def db5 : DB := ⟨[deptSM], [⟨"emp1", some "s", "ACTIVE"⟩], []⟩

/-- Fixture: `deptSM` with no dependents. -/
def db5b : DB := ⟨[deptSM], [], []⟩

/-- Fixture: an existing department named Engineering. -/
def engDept : Department := ⟨"d1", "Engineering", none, true, none, none, 0, 0⟩

/-- Fixture: store holding only `engDept`. -/
def dbEng : DB := ⟨[engDept], [], []⟩

/-- Fixture: create payload whose name differs from Engineering only by case. -/
def inputUpper : CreateInput := ⟨"ENGINEERING", none, none, none, none⟩

/-- Fixture: create payload with a genuinely new name. -/
def inputEng2 : CreateInput := ⟨"Engineering2", none, none, none, none⟩

/-- Fixture: a department with every optional field populated. -/
def deptFull : Department := ⟨"d1", "Sales", some "old", true, some "m1", some "p1", 0, 0⟩

/-- Fixture: store holding only `deptFull`. -/
def db7 : DB := ⟨[deptFull], [], []⟩

/-- Fixture: update payload supplying only a description. -/
def upd7 : UpdateData := ⟨none, none, none, none, some (some "newdesc")⟩

/-- Fixture: the empty store. -/
def emptyDB : DB := ⟨[], [], []⟩

/-- Fixture: valid list parameters, page 2 of 10. -/
def okParams : GetParams := ⟨"ADMIN", some 2, some 10, none, none, none, none, none⟩

/-- Fixture: list parameters with a limit above 100. -/
def overLimitParams : GetParams := ⟨"ADMIN", none, some 101, none, none, none, none, none⟩

/-- Fixture: list parameters with an unrecognized sort key. -/
def badSortParams : GetParams := ⟨"ADMIN", none, none, none, none, none, some "department", none⟩

/-- Fixture: list parameters relying on every default. -/
def defParams : GetParams := ⟨"ADMIN", none, none, none, none, none, none, none⟩

/-- Fixture: `deptFull` after an update writing only the description. -/
def d7u : Department := ⟨"d1", "Sales", some "newdesc", true, some "m1", some "p1", 0, 5⟩

/-- Fixture: the pair returned by the description-only update on `db7`. -/
def r7val : DB × Department := (replaceDept db7 d7u, d7u)

/-- Fixture: `deptFull` after an update writing only `isActive: false`. -/
def d10u : Department := ⟨"d1", "Sales", some "old", false, some "m1", some "p1", 0, 7⟩

/-- Fixture: the list result for page 2, limit 10 over the empty store. -/
def r8val : ListResult := ⟨[], ⟨2, 10, 0, 0, false, true⟩⟩

/-- Fixture: `deptFull` with one active employee assigned to it. -/
def db10 : DB := ⟨[deptFull], [⟨"emp1", some "d1", "ACTIVE"⟩], []⟩

/-- Fixture: update payload supplying only `isActive: false`. -/
def upd10 : UpdateData := ⟨none, none, none, some false, none⟩

/-- C1: for every department id X and every repository lookup, the cycle
check invoked with equal arguments returns true; the result does not depend
on the lookup, so the repository is never consulted. -/
theorem checkCircularReference_self (find : String → Except Unit (Option (Option String)))
    (x : String) : checkCircularReference find x x = true := by
  simp [checkCircularReference]

/-- C2: over the stored chain A→B→C (C's parent B, B's parent A, A a root),
making C the parent of A is reported as a cycle, while making C the parent
of an unrelated department D is not. -/
theorem checkCircularReference_chain (a b c d : String)
    (hab : a ≠ b) (hac : a ≠ c) (hbc : b ≠ c)
    (hda : d ≠ a) (hdb : d ≠ b) (hdc : d ≠ c) :
    checkCircularReference (dbParentLookup (chainDB a b c)) a c = true ∧
    checkCircularReference (dbParentLookup (chainDB a b c)) d c = false := by
  have eac : (a == c) = false := beq_eq_false_iff_ne.mpr hac
  have eab : (a == b) = false := beq_eq_false_iff_ne.mpr hab
  have ebc : (b == c) = false := beq_eq_false_iff_ne.mpr hbc
  have eba : (b == a) = false := beq_eq_false_iff_ne.mpr hab.symm
  have eca : (c == a) = false := beq_eq_false_iff_ne.mpr hac.symm
  have ecb : (c == b) = false := beq_eq_false_iff_ne.mpr hbc.symm
  constructor
  · simp [checkCircularReference, ccrWalk, dbParentLookup, chainDB, List.find?,
      eac, ebc, eab, eba, hac, hbc, hab, Ne.symm hac, Ne.symm hbc, Ne.symm hab]
  · simp [checkCircularReference, ccrWalk, dbParentLookup, chainDB, List.find?,
      eac, ebc, eab, eba, eca, ecb, hda, hdb, hdc, hab, hac, hbc,
      Ne.symm hda, Ne.symm hdb, Ne.symm hdc, Ne.symm hab, Ne.symm hac, Ne.symm hbc]

/-- Witness for C2 at concrete ids. -/
theorem checkCircularReference_chain_witness :
    checkCircularReference (dbParentLookup (chainDB "a" "b" "c")) "a" "c" = true ∧
    checkCircularReference (dbParentLookup (chainDB "a" "b" "c")) "d" "c" = false :=
  checkCircularReference_chain "a" "b" "c" "d"
    (by decide) (by decide) (by decide) (by decide) (by decide) (by decide)

/-- Helper: the walk can only answer `true` by meeting an id again; if no
id reachable within the fuel bound lies in the visited set and the chain
does not repeat within the bound, the walk answers `false` — whether it
ends by fuel exhaustion, a null parent, a missing row or a lookup error. -/
theorem ccrWalk_false_of_noRevisit (find : String → Except Unit (Option (Option String))) :
    ∀ (fuel : Nat) (visited : List String) (current : Option String),
    (∀ i x, i ≤ fuel → iterParent find current i = some x → x ∉ visited) →
    (∀ i j x, i < j → j ≤ fuel → iterParent find current i = some x →
      iterParent find current j = some x → False) →
    ccrWalk find visited current fuel = false := by
  intro fuel
  induction fuel with
  | zero =>
    intro visited current h1 h2
    simp [ccrWalk]
  | succ f ih =>
    intro visited current h1 h2
    match current with
    | none => simp [ccrWalk]
    | some c =>
      have hc : c ∉ visited := h1 0 c (Nat.zero_le _) rfl
      rw [ccrWalk, if_neg hc]
      cases hfc : find c with
      | error u => rfl
      | ok po =>
        cases po with
        | none => rfl
        | some p =>
          apply ih (c :: visited) p
          · intro i x hi hx
            have hx1 : iterParent find (some c) (i + 1) = some x := by
              simp [iterParent, hfc, hx]
            intro hmem
            rcases List.mem_cons.mp hmem with hxc | hxv
            · exact h2 0 (i + 1) c (Nat.succ_pos i) (Nat.succ_le_succ hi) rfl (hxc ▸ hx1)
            · exact h1 (i + 1) x (Nat.succ_le_succ hi) hx1 hxv
          · intro i j x hij hj hxi hxj
            have hxi1 : iterParent find (some c) (i + 1) = some x := by
              simp [iterParent, hfc, hxi]
            have hxj1 : iterParent find (some c) (j + 1) = some x := by
              simp [iterParent, hfc, hxj]
            exact h2 (i + 1) (j + 1) x (Nat.succ_lt_succ hij) (Nat.succ_le_succ hj) hxi1 hxj1

/-- C3: the cycle check fails open.  For distinct arguments: a repository
error at the first lookup yields `false`; a missing row at the first lookup
yields `false`; and whenever the ancestor chain of the proposed parent
never returns to the checked department and never repeats within the depth
bound of 50 — in particular when it is deeper than 50 — the answer is
`false` rather than a failure of the whole operation. -/
theorem checkCircularReference_fails_open
    (find : String → Except Unit (Option (Option String)))
    (d p : String) (hne : d ≠ p) :
    (find p = .error () → checkCircularReference find d p = false) ∧
    (find p = .ok none → checkCircularReference find d p = false) ∧
    ((∀ i x, i ≤ 50 → iterParent find (some p) i = some x → x ≠ d) →
     (∀ i j x, i < j → j ≤ 50 → iterParent find (some p) i = some x →
       iterParent find (some p) j = some x → False) →
     checkCircularReference find d p = false) := by
  have hpd : p ∉ [d] := by simp [List.mem_singleton]; exact (Ne.symm hne)
  refine ⟨?_, ?_, ?_⟩
  · intro hfp
    rw [checkCircularReference, if_neg hne, ccrWalk, if_neg hpd, hfp]
  · intro hfp
    rw [checkCircularReference, if_neg hne, ccrWalk, if_neg hpd, hfp]
  · intro h1 h2
    rw [checkCircularReference, if_neg hne]
    apply ccrWalk_false_of_noRevisit find 50 [d] (some p)
    · intro i x hi hx
      simp [List.mem_singleton]
      exact h1 i x hi hx
    · exact h2

/-- Helper: on `chainFind` the id reached after `i` steps from `s` is
defined and `i` characters longer than `s`. -/
theorem chainFind_iter :
    ∀ (i : Nat) (s : String), ∃ t, iterParent chainFind (some s) i = some t ∧
      t.length = s.length + i := by
  intro i
  induction i with
  | zero => intro s; exact ⟨s, rfl, rfl⟩
  | succ n ih =>
    intro s
    rcases ih (s ++ "x") with ⟨t, ht, hl⟩
    refine ⟨t, ?_, ?_⟩
    · have hstep : iterParent chainFind (some s) (n + 1) =
          iterParent chainFind (some (s ++ "x")) n := rfl
      rw [hstep]
      exact ht
    · rw [hl, String.length_append, show ("x" : String).length = 1 by decide]
      omega

/-- Witness for C3: the three fail-open cases at concrete inputs, the third
on a never-repeating chain deeper than the bound. -/
theorem checkCircularReference_fails_open_witness :
    checkCircularReference errFind "" "b" = false ∧
    checkCircularReference noneFind "" "b" = false ∧
    checkCircularReference chainFind "" "b" = false := by
  refine ⟨(checkCircularReference_fails_open errFind "" "b" (by decide)).1 rfl,
          (checkCircularReference_fails_open noneFind "" "b" (by decide)).2.1 rfl,
          (checkCircularReference_fails_open chainFind "" "b" (by decide)).2.2 ?_ ?_⟩
  · intro i x hi hx hxd
    rcases chainFind_iter i "b" with ⟨t, ht, hl⟩
    rw [ht] at hx
    cases hx
    rw [hxd, show ("" : String).length = 0 by decide,
      show ("b" : String).length = 1 by decide] at hl
    omega
  · intro i j x hij hj hxi hxj
    rcases chainFind_iter i "b" with ⟨t1, ht1, hl1⟩
    rcases chainFind_iter j "b" with ⟨t2, ht2, hl2⟩
    rw [ht1] at hxi
    rw [ht2] at hxj
    cases hxi
    cases hxj
    rw [hl1] at hl2
    omega

/-- C4: the parent path of `updateDepartment`.  With the earlier stages
passing (authorized elevated role, department found, no name conflict,
manager check passing): a present non-null `parentId` naming no active
department fails with the parent ValidationError before anything else; a
present non-null `parentId` that passes the existence check but is flagged
by the cycle check fails with the circular-reference ValidationError and no
write is performed; a payload whose `parentId` is absent or null passes the
parent block without any validation or cycle check and the update proceeds
to the write. -/
theorem updateDepartment_parent_path
    (db : DB) (id : String) (data : UpdateData) (role : String) (now : Nat)
    (existing : Department)
    (hid : id ≠ "") (hrole : role = "ADMIN" ∨ role = "HR")
    (hfind : findDept db id = some existing)
    (hname : checkNameConflict db id existing data.name = .ok ())
    (hmgr : checkManagerRef db data.managerId.join = .ok ()) :
    (∀ p, data.parentId = some (some p) → findActiveDept db p = none →
      updateDepartment db id data role now =
        .error (.validation "Parent department not found or not active")) ∧
    (∀ p q, data.parentId = some (some p) → findActiveDept db p = some q →
      checkCircularReference (dbParentLookup db) id p = true →
      updateDepartment db id data role now =
        .error (.validation "Cannot create circular parent-child relationship")) ∧
    ((data.parentId = none ∨ data.parentId = some none) →
      checkParentUpdate db id data.parentId = .ok () ∧
      updateDepartment db id data role now =
        .ok (replaceDept db (applyUpdate existing data now), applyUpdate existing data now)) := by
  have hauth : checkAuthorization role ["ADMIN", "HR"] = .ok () := by
    rcases hrole with h | h <;> subst h <;> rfl
  refine ⟨?_, ?_, ?_⟩
  · intro p hp hpfind
    simp only [updateDepartment, if_neg hid, hauth, hfind, hname, hmgr, hp,
      checkParentUpdate, hpfind]
  · intro p q hp hpfind hcirc
    simp only [updateDepartment, if_neg hid, hauth, hfind, hname, hmgr, hp,
      checkParentUpdate, hpfind, hcirc, if_pos]
  · intro hpv
    have hok : checkParentUpdate db id data.parentId = .ok () := by
      rcases hpv with h | h <;> rw [h] <;> rfl
    refine ⟨hok, ?_⟩
    simp only [updateDepartment, if_neg hid, hauth, hfind, hname, hmgr, hok]

/-- Witness for C4: re-parenting the root of a two-level chain under its
own child is rejected as a circular relationship. -/
theorem updateDepartment_parent_path_witness :
    updateDepartment db4 "s" upd4 "ADMIN" 0 =
      .error (.validation "Cannot create circular parent-child relationship") :=
  (updateDepartment_parent_path db4 "s" upd4 "ADMIN" 0 deptS
    (by decide) (Or.inl rfl) rfl rfl rfl).2.1 "e" deptE rfl rfl (by decide)

/-- C5: the guards of `deleteDepartment`.  For an existing active
department: with n ≥ 1 active employees the soft delete fails with the
ValidationError naming that count; with no active employees, children or
positions it succeeds and the one update writes `isActive = false` and
`managerId = null` together. -/
theorem deleteDepartment_guards
    (db : DB) (id role : String) (now : Nat) (existing : Department)
    (hid : id ≠ "") (hrole : role = "ADMIN" ∨ role = "HR")
    (hfind : findDept db id = some existing) (hact : existing.isActive = true) :
    (1 ≤ (activeEmployeesOf db id).length →
      deleteDepartment db id role now = .error (.validation
        ("Cannot delete department with " ++ toString (activeEmployeesOf db id).length ++
         " active employee(s). Please reassign employees first."))) ∧
    (activeEmployeesOf db id = [] → activeChildrenOf db id = [] →
      activePositionsOf db id = [] →
      deleteDepartment db id role now =
        .ok (replaceDept db { existing with isActive := false, managerId := none, updatedAt := now },
             { existing with isActive := false, managerId := none, updatedAt := now })) := by
  have hauth : checkAuthorization role ["ADMIN", "HR"] = .ok () := by
    rcases hrole with h | h <;> subst h <;> rfl
  constructor
  · intro hn
    have hpos : 0 < (activeEmployeesOf db id).length := hn
    simp only [deleteDepartment, if_neg hid, hauth, hfind, hact, Bool.not_true,
      Bool.false_eq_true, if_false, if_pos hpos]
  · intro he hc hp
    simp only [deleteDepartment, if_neg hid, hauth, hfind, hact, Bool.not_true,
      Bool.false_eq_true, if_false, he, hc, hp, List.length_nil, Nat.lt_irrefl, if_false]

/-- Witness for C5: one active employee blocks the delete with the count in
the message; with no dependents the delete succeeds, deactivating and
clearing the manager in one write. -/
theorem deleteDepartment_guards_witness :
    deleteDepartment db5 "s" "ADMIN" 3 = .error (.validation
      "Cannot delete department with 1 active employee(s). Please reassign employees first.") ∧
    deleteDepartment db5b "s" "ADMIN" 3 =
      .ok (replaceDept db5b { deptSM with isActive := false, managerId := none, updatedAt := 3 },
           { deptSM with isActive := false, managerId := none, updatedAt := 3 }) :=
  ⟨(deleteDepartment_guards db5 "s" "ADMIN" 3 deptSM
      (by decide) (Or.inl rfl) rfl rfl).1 (by decide),
   (deleteDepartment_guards db5b "s" "ADMIN" 3 deptSM
      (by decide) (Or.inl rfl) rfl rfl).2 rfl rfl rfl⟩

/-- C6: name uniqueness in `createDepartment`.  For a payload that parses
(its name trimmed by the schema): if any existing department — active or
inactive — matches the new name case-insensitively, creation fails with
the duplicate-name ValidationError and nothing is inserted; if no existing
department matches, the uniqueness check passes and (with no manager or
parent supplied) the department is created. -/
theorem createDepartment_name_uniqueness
    (db : DB) (newId : String) (input : CreateInput) (role : String) (now : Nat)
    (data : CreateData)
    (hrole : role = "ADMIN" ∨ role = "HR")
    (hparse : parseCreateInput input = .ok data) :
    ((∃ d, d ∈ db.departments ∧ nameInsensitiveEq d.name data.name = true) →
      createDepartment db newId input role now =
        .error (.validation "Department name already exists")) ∧
    ((∀ d, d ∈ db.departments → nameInsensitiveEq d.name data.name = false) →
      data.managerId = none → data.parentId = none →
      createDepartment db newId input role now =
        .ok ({ db with departments := db.departments ++ [newDeptOf newId data now] },
             newDeptOf newId data now)) := by
  have hauth : checkAuthorization role ["ADMIN", "HR"] = .ok () := by
    rcases hrole with h | h <;> subst h <;> rfl
  constructor
  · intro hex
    have hm : ∃ d2, findNameMatch db data.name = some d2 := by
      rcases hex with ⟨d, hd, hpd⟩
      cases hm2 : findNameMatch db data.name with
      | none =>
        have := List.find?_eq_none.mp hm2 d hd
        simp [hpd] at this
      | some d2 => exact ⟨d2, rfl⟩
    rcases hm with ⟨d2, hm⟩
    simp only [createDepartment, hauth, hparse, hm]
  · intro hall hmid hpid
    have hm : findNameMatch db data.name = none :=
      List.find?_eq_none.mpr (fun d hd => by simp [hall d hd])
    simp only [createDepartment, hauth, hparse, hm, hmid, hpid, checkManagerRef,
      checkParentRefCreate]

/-- Witness for C6: after "Engineering" exists, creating "ENGINEERING"
fails with the duplicate-name error while creating "Engineering2"
succeeds. -/
theorem createDepartment_name_uniqueness_witness :
    createDepartment dbEng "d2" inputUpper "ADMIN" 1 =
      .error (.validation "Department name already exists") ∧
    createDepartment dbEng "d2" inputEng2 "ADMIN" 1 =
      .ok ({ dbEng with departments := dbEng.departments ++
              [newDeptOf "d2" ⟨"Engineering2", none, none, true, none⟩ 1] },
           newDeptOf "d2" ⟨"Engineering2", none, none, true, none⟩ 1) :=
  ⟨(createDepartment_name_uniqueness dbEng "d2" inputUpper "ADMIN" 1
      ⟨"ENGINEERING", none, none, true, none⟩ (Or.inl rfl) rfl).1
      ⟨engDept, by decide, by decide⟩,
   (createDepartment_name_uniqueness dbEng "d2" inputEng2 "ADMIN" 1
      ⟨"Engineering2", none, none, true, none⟩ (Or.inl rfl) rfl).2
      (by decide) rfl rfl⟩

/-- C7: partial-update frame property of `updateDepartment`.  Whenever an
update succeeds, each field absent from the validated payload keeps the
stored department's previous value (in particular it is not nulled), and
each present field — including a present-null one — is written with exactly
the supplied value. -/
theorem updateDepartment_frame
    (db : DB) (id : String) (data : UpdateData) (role : String) (now : Nat)
    (existing : Department) (r : DB × Department)
    (hfind : findDept db id = some existing)
    (h : updateDepartment db id data role now = .ok r) :
    (data.name = none → r.2.name = existing.name) ∧
    (data.managerId = none → r.2.managerId = existing.managerId) ∧
    (data.parentId = none → r.2.parentId = existing.parentId) ∧
    (data.isActive = none → r.2.isActive = existing.isActive) ∧
    (data.description = none → r.2.description = existing.description) ∧
    (∀ v, data.name = some v → r.2.name = v) ∧
    (∀ v, data.managerId = some v → r.2.managerId = v) ∧
    (∀ v, data.parentId = some v → r.2.parentId = v) ∧
    (∀ v, data.isActive = some v → r.2.isActive = v) ∧
    (∀ v, data.description = some v → r.2.description = v) := by
  unfold updateDepartment at h
  have hr2 : r.2 = applyUpdate existing data now := by
    split at h
    · simp at h
    · split at h
      · simp at h
      · split at h
        · simp at h
        · rename_i x hx
          split at h
          · simp at h
          · split at h
            · simp at h
            · split at h
              · simp at h
              · rw [hfind] at hx
                cases Option.some.inj hx
                have hp := Except.ok.inj h
                rw [← hp]
  refine ⟨fun hv => ?_, fun hv => ?_, fun hv => ?_, fun hv => ?_, fun hv => ?_,
          fun v hv => ?_, fun v hv => ?_, fun v hv => ?_, fun v hv => ?_,
          fun v hv => ?_⟩ <;>
    simp [hr2, applyUpdate, hv]

/-- Witness for C7: updating only the description leaves name, manager and
parent as they were. -/
theorem updateDepartment_frame_witness :
    updateDepartment db7 "d1" upd7 "ADMIN" 5 = .ok r7val ∧
    r7val.2.name = "Sales" ∧ r7val.2.managerId = some "m1" ∧ r7val.2.parentId = some "p1" := by
  have h : updateDepartment db7 "d1" upd7 "ADMIN" 5 = .ok r7val := rfl
  have fr := updateDepartment_frame db7 "d1" upd7 "ADMIN" 5 deptFull r7val rfl h
  exact ⟨h, fr.1 rfl, fr.2.1 rfl, fr.2.2.1 rfl⟩

/-- C10: `updateDepartment` accepts `isActive` with no dependency guard and
no manager clearing.  For an existing department with at least one active
dependent (employee, child department, or position), an update supplying
only `isActive: false` still succeeds, deactivating the department while
leaving `managerId` (and every other field) unchanged — so the soft-delete
invariant is enforced only by `deleteDepartment`, not by every mutating
operation. -/
theorem updateDepartment_isActive_unguarded
    (db : DB) (id role : String) (now : Nat) (existing : Department)
    (hid : id ≠ "") (hrole : role = "ADMIN" ∨ role = "HR")
    (hfind : findDept db id = some existing)
    (hdep : 1 ≤ (activeEmployeesOf db id).length ∨ 1 ≤ (activeChildrenOf db id).length ∨
      1 ≤ (activePositionsOf db id).length) :
    updateDepartment db id ⟨none, none, none, some false, none⟩ role now =
      .ok (replaceDept db { existing with isActive := false, updatedAt := now },
           { existing with isActive := false, updatedAt := now }) ∧
    ({ existing with isActive := false, updatedAt := now }).managerId = existing.managerId := by
  have hauth : checkAuthorization role ["ADMIN", "HR"] = .ok () := by
    rcases hrole with h | h <;> subst h <;> rfl
  constructor
  · simp only [updateDepartment, if_neg hid, hauth, hfind]
    rfl
  · rfl

/-- Witness for C10: deactivating a department that still has an active
employee succeeds through `updateDepartment` and keeps its manager. -/
theorem updateDepartment_isActive_unguarded_witness :
    updateDepartment db10 "d1" upd10 "ADMIN" 7 =
      .ok (replaceDept db10 d10u, d10u) ∧ d10u.managerId = some "m1" := by
  have h := updateDepartment_isActive_unguarded db10 "d1" "ADMIN" 7 deptFull
    (by decide) (Or.inl rfl) rfl (Or.inl (by decide))
  exact ⟨h.1, rfl⟩

/-- Helper: a limit accepted by the schema lies in [1,100]. -/
theorem parseLimit_ok_bounds (o : Option Nat) (l : Nat) (h : parseLimit o = .ok l) :
    1 ≤ l ∧ l ≤ 100 := by
  cases o with
  | none =>
    simp only [parseLimit] at h
    cases Except.ok.inj h
    omega
  | some x =>
    simp only [parseLimit] at h
    split at h
    · exact absurd h (by simp)
    · split at h
      · exact absurd h (by simp)
      · cases Except.ok.inj h
        omega

/-- Helper: a page accepted by the schema is at least 1. -/
theorem parsePage_ok_pos (o : Option Nat) (p : Nat) (h : parsePage o = .ok p) :
    1 ≤ p := by
  cases o with
  | none =>
    simp only [parsePage] at h
    cases Except.ok.inj h
    omega
  | some x =>
    simp only [parsePage] at h
    split at h
    · cases Except.ok.inj h
      omega
    · exact absurd h (by simp)

/-- Helper: successful schema parses produce a limit in [1,100] and a page
at least 1. -/
theorem parseGetParams_ok_bounds (p : GetParams) (vp : ValidatedGetParams)
    (h : parseGetParams p = .ok vp) :
    1 ≤ vp.limit ∧ vp.limit ≤ 100 ∧ 1 ≤ vp.page := by
  unfold parseGetParams at h
  cases hpg : parsePage p.page with
  | error e => rw [hpg] at h; simp at h
  | ok pg =>
    rw [hpg] at h
    cases hlim : parseLimit p.limit with
    | error e => rw [hlim] at h; simp at h
    | ok lim =>
      rw [hlim] at h
      cases hse : parseSearch p.search with
      | error e => rw [hse] at h; simp at h
      | ok se =>
        rw [hse] at h
        cases hsb : parseSortBy p.sortBy with
        | error e => rw [hsb] at h; simp at h
        | ok sb =>
          rw [hsb] at h
          cases hso : parseSortOrder p.sortOrder with
          | error e => rw [hso] at h; simp at h
          | ok so =>
            rw [hso] at h
            have hv := Except.ok.inj h
            rw [← hv]
            exact ⟨(parseLimit_ok_bounds p.limit lim hlim).1,
                   (parseLimit_ok_bounds p.limit lim hlim).2,
                   parsePage_ok_pos p.page pg hpg⟩

/-- C8 (amended): every successful list call satisfies the pagination
invariant — `pages = ceil(total / limit)`, `hasNext = (page < pages)`,
`hasPrev = (page > 1)` — and its limit lies in [1,100] and its page is at
least 1; but an out-of-range supplied limit is rejected by the schema
(see the counterexample), not clamped. -/
theorem getDepartments_pagination
    (db : DB) (params : GetParams) (r : ListResult)
    (h : getDepartments db params = .ok r) :
    r.pagination.pages = ceilDivNat r.pagination.total r.pagination.limit ∧
    r.pagination.hasNext = decide (r.pagination.page < r.pagination.pages) ∧
    r.pagination.hasPrev = decide (1 < r.pagination.page) ∧
    1 ≤ r.pagination.limit ∧ r.pagination.limit ≤ 100 ∧ 1 ≤ r.pagination.page := by
  unfold getDepartments at h
  split at h
  · simp at h
  · rename_i vp hvp
    split at h
    · simp at h
    · cases Except.ok.inj h
      have hb := parseGetParams_ok_bounds params vp hvp
      exact ⟨rfl, rfl, rfl, hb.1, hb.2.1, hb.2.2⟩

/-- Witness for C8: a successful call at page 2, limit 10 over the empty
store satisfies the pagination invariant. -/
theorem getDepartments_pagination_witness :
    getDepartments emptyDB okParams = .ok r8val ∧
    r8val.pagination.pages = ceilDivNat r8val.pagination.total r8val.pagination.limit ∧
    r8val.pagination.hasNext = decide (r8val.pagination.page < r8val.pagination.pages) ∧
    r8val.pagination.hasPrev = decide (1 < r8val.pagination.page) := by
  have h : getDepartments emptyDB okParams = .ok r8val := rfl
  have hp := getDepartments_pagination emptyDB okParams r8val h
  exact ⟨h, hp.1, hp.2.1, hp.2.2.1⟩

/-- Counterexample for C8: a supplied limit of 101 is rejected by the
schema with a parse error — the call fails instead of clamping the limit
into [1,100]. -/
theorem getDepartments_limit_not_clamped :
    getDepartments emptyDB overLimitParams = .error (.parse "Limit cannot exceed 100") := rfl

/-- Counterexample for C9: an unrecognized `sortBy` value is rejected by
the schema enum with a parse error — the call fails instead of falling
back to name/ascending. -/
theorem getDepartments_sortBy_rejected :
    getDepartments emptyDB badSortParams = .error (.parse "Invalid enum value") := rfl

/-- C9 (amended): only an absent `sortBy` falls back to the default — a
list call without `sortBy` behaves exactly as one sorting by name (with the
separately-defaulted ascending order); an unrecognized `sortBy` value is
rejected at parse time (see the counterexample). -/
theorem getDepartments_sortBy_default (db : DB) (u : String)
    (pg lim : Option Nat) (ia : Option Bool) (pid : Option (Option String))
    (se so : Option String) :
    getDepartments db ⟨u, pg, lim, ia, pid, se, none, so⟩ =
      getDepartments db ⟨u, pg, lim, ia, pid, se, some "name", so⟩ := by
  unfold getDepartments parseGetParams
  simp [parseSortBy]

/-- Witness for C9: the all-defaults call equals the explicit name-sorted
call. -/
theorem getDepartments_sortBy_default_witness :
    getDepartments emptyDB defParams =
      getDepartments emptyDB ⟨"ADMIN", none, none, none, none, none, some "name", none⟩ :=
  getDepartments_sortBy_default emptyDB "ADMIN" none none none none none none
